import Mathlib

/-
Verification of the `osm-update` command of qlever-control
(`src/qlever/commands/osm_update.py`, class `OsmUpdateCommand`).

The command logic is embedded shallowly:
  * parsed CLI / Qleverfile arguments become the structure `Args`;
  * the filesystem (`os.path.exists`) is an explicit oracle `fs : String → Bool`;
  * the generic process-execution collaborator `run_command` (not part of the
    analysed source tree) is an explicit outcome oracle
    `runOutcome : Except String Unit`;
  * observable side effects (log.error / log.info / self.show calls, the
    construction of the container invocation, the process launch) are recorded
    in an event trace, so that ordering and absence claims are statable.
-/

namespace OsmUpdate

/-- Python truthiness of an optional string argument:
`None` and the empty string are falsy, every other string is truthy.
Used for `if args.replication_server:` and `if args.polyfile:`. -/
def truthy : Option String → Bool
  | none => false
  | some s => s != ""

/-- The constant set in `OsmUpdateCommand.__init__`:
`self.planet_replication_server_url = "https://planet.osm.org/replication/"`. -/
def planet_replication_server_url : String :=
  "https://planet.osm.org/replication/"

/-- The resolved parameters consumed by `OsmUpdateCommand.execute`:
`name`, `host_name`, `port`, `access_token` come from the Qleverfile;
`granularity` (argparse `nargs=1`, hence a list), `polyfile` and
`replication_server` are CLI arguments; `only_show` models `args.show`. -/
structure Args where
  name : String
  host_name : String
  port : Nat
  access_token : String
  granularity : List String
  polyfile : Option String
  replication_server : Option String
  only_show : Bool
deriving DecidableEq

/-- The data handed to `Containerize().containerize_command` in
`execute_olu` (lines 113-122): inner command, container runtime,
runtime flags, image, container name, volume mounts, working directory,
and whether a bash wrapper is used. -/
structure ContainerInvocation where
  command : String
  runtime : String
  runtimeFlags : String
  image : String
  containerName : String
  volumes : List (String × String)
  workingDirectory : String
  useBash : Bool
deriving DecidableEq

/-- Modelled from the spec: `Containerize.containerize_command` is not in the
analysed source tree (only its call site is).  Per the spec it is the external
containerization facility
`wrap(innerCommand, runtimeName, runtimeFlags, image, containerName, volumes,
workingDirectory) -> finalCommandTokens`, a deterministic wrapper that adds no
logic of its own; we model its result as the record of its arguments. -/
def containerize_command (command runtime runtimeFlags image containerName : String)
    (volumes : List (String × String)) (workingDirectory : String)
    (useBash : Bool) : ContainerInvocation :=
  ⟨command, runtime, runtimeFlags, image, containerName, volumes,
   workingDirectory, useBash⟩

/-- Observable events of one command execution, in order:
`descriptionShown` models the `self.show(cmd_description, ...)` call in
`execute` (line 85; the formatted message is a function of the three recorded
strings); `errorReported` models `log.error`; `infoShown` models `log.info`;
`invocationBuilt` records that `containerize_command` was called and with what
result; `invocationShown` models `self.show(f"{olu_cmd}", ...)` (line 124);
`processLaunched` models the `run_command(olu_cmd, show_output=True)` call. -/
inductive Event where
  | descriptionShown (name granularity replication_server : String)
  | errorReported (msg : String)
  | infoShown (msg : String)
  | invocationBuilt (inv : ContainerInvocation)
  | invocationShown (inv : ContainerInvocation)
  | processLaunched (inv : ContainerInvocation)
deriving DecidableEq

/-- Whether an event is the construction of a container invocation. -/
def Event.isBuilt : Event → Bool
  | .invocationBuilt _ => true
  | _ => false

/-- Whether an event is a child-process launch. -/
def Event.isLaunched : Event → Bool
  | .processLaunched _ => true
  | _ => false

/-- The inner olu command string assembled in `execute_olu` lines 93-99:
`f"{sparql_endpoint}"`, then `" -a {args.access_token}"`,
`" -f {replication_server_url}"`, `" --qlever"`, where
`sparql_endpoint = f"http://{args.host_name}:{args.port}"`. -/
def olu_inner_cmd (replication_server_url : String) (args : Args) : String :=
  let sparql_endpoint := "http://" ++ args.host_name ++ ":" ++ toString args.port
  let olu_cmd := sparql_endpoint
  let olu_cmd := olu_cmd ++ " -a " ++ args.access_token
  let olu_cmd := olu_cmd ++ " -f " ++ replication_server_url
  let olu_cmd := olu_cmd ++ " --qlever"
  olu_cmd

/-- The `containerize_command` call of `execute_olu` lines 113-122, with
`container_name = f"olu-{args.name}"` from line 94. -/
def olu_invocation (olu_cmd : String) (args : Args) : ContainerInvocation :=
  containerize_command olu_cmd "docker" "run --rm" "olu:latest"
    ("olu-" ++ args.name) [("$(pwd)", "/update")] "/update" false

/-- The tail of `execute_olu` (lines 113-134): containerize, show the
command, return `True` in show mode, otherwise run it, returning `False`
when `run_command` raises.  `runOutcome` is the outcome of the (external)
`run_command` call: `Except.ok ()` for a zero exit status, `Except.error e`
when the launch fails or the child exits non-zero (`run_command` raises). -/
def run_phase (runOutcome : Except String Unit) (args : Args)
    (inv : ContainerInvocation) : Bool × List Event :=
  if args.only_show then
    (true, [Event.invocationBuilt inv, Event.invocationShown inv])
  else
    match runOutcome with
    | Except.ok _ =>
        (true, [Event.invocationBuilt inv, Event.invocationShown inv,
                Event.processLaunched inv])
    | Except.error e =>
        (false, [Event.invocationBuilt inv, Event.invocationShown inv,
                 Event.processLaunched inv,
                 Event.errorReported ("Error running osm-live-updates: " ++ e)])

/-- `OsmUpdateCommand.execute_olu` (lines 92-134): assemble the inner
command, validate the optional polyfile (lines 102-109: `log.error` plus two
`log.info` guidance lines and `return False` when it does not exist), append
`--polygon` when present, containerize, then dispatch via `run_phase`. -/
def execute_olu (fs : String → Bool) (runOutcome : Except String Unit)
    (replication_server_url : String) (args : Args) : Bool × List Event :=
  let olu_cmd := olu_inner_cmd replication_server_url args
  if truthy args.polyfile then
    let p := args.polyfile.getD ""
    if !(fs p) then
      (false,
        [Event.errorReported ("No file matching \"" ++ p ++ "\" found"),
         Event.infoShown "",
         Event.infoShown "Check if the polyfile exists and if the path is correct."])
    else
      run_phase runOutcome args (olu_invocation (olu_cmd ++ " --polygon " ++ p) args)
  else
    run_phase runOutcome args (olu_invocation olu_cmd args)

/-- The replication-source resolution of `execute` lines 72-77: the override
verbatim when truthy, otherwise
`f"{self.planet_replication_server_url}{granularity}/"` with
`granularity = args.granularity[0]`. -/
def resolve_replication_server (args : Args) : String :=
  if truthy args.replication_server then args.replication_server.getD ""
  else planet_replication_server_url ++ args.granularity.headD "" ++ "/"

/-- `OsmUpdateCommand.execute` (lines 68-90): resolve the replication
server, show the description, run `execute_olu` and forward its result. -/
def execute (fs : String → Bool) (runOutcome : Except String Unit)
    (args : Args) : Bool × List Event :=
  let granularity := args.granularity.headD ""
  let replication_server := resolve_replication_server args
  let r := execute_olu fs runOutcome replication_server args
  (r.1, Event.descriptionShown args.name granularity replication_server :: r.2)

/-- The container invocation recorded in a result trace, if any. -/
def builtInv (r : Bool × List Event) : Option ContainerInvocation :=
  r.2.findSome? fun e => match e with
    | Event.invocationBuilt inv => some inv
    | _ => none

/-- A result represents a boundary-file validation failure when it is failed
and no container invocation was ever constructed. -/
def validationFailed (r : Bool × List Event) : Bool :=
  !r.1 && r.2.all fun e => !e.isBuilt

/-- Sample arguments of end-to-end scenario 1 of the spec. -/
def argsEx : Args :=
  { name := "myregion", host_name := "localhost", port := 7001,
    access_token := "tok", granularity := ["day"], polyfile := none,
    replication_server := none, only_show := true }

/-- Sample arguments with a polyfile, for witnesses. -/
def argsPoly : Args :=
  { argsEx with polyfile := some "region.poly" }

theorem builtInv_run_phase (runOutcome : Except String Unit) (args : Args)
    (inv : ContainerInvocation) :
    builtInv (run_phase runOutcome args inv) = some inv := by
  cases h : args.only_show <;> cases runOutcome <;>
    simp [run_phase, builtInv, h, List.findSome?]

theorem validationFailed_run_phase (runOutcome : Except String Unit)
    (args : Args) (inv : ContainerInvocation) :
    validationFailed (run_phase runOutcome args inv) = false := by
  cases h : args.only_show <;> cases runOutcome <;>
    simp [run_phase, validationFailed, h, Event.isBuilt]

theorem truthy_some {p : String} (hne : p ≠ "") : truthy (some p) = true := by
  simp [truthy, hne]

/-- C1: the inner updater command is assembled in exactly the order
endpoint URL, `-a token`, `-f source`, `--qlever`, and — only when a
boundary file is supplied — `--polygon path`; and for the scenario-1
arguments (name myregion, granularity day, no polyfile, no override, host
localhost, port 7001, token tok) the resolved source is
`https://planet.osm.org/replication/day/`, the inner command is
`http://localhost:7001 -a tok -f https://planet.osm.org/replication/day/ --qlever`
and the built invocation carries container name `olu-myregion`. -/
theorem c1_inner_command_order :
    (∀ (u : String) (args : Args),
      olu_inner_cmd u args =
        "http://" ++ args.host_name ++ ":" ++ toString args.port ++
          " -a " ++ args.access_token ++ " -f " ++ u ++ " --qlever")
    ∧ (∀ (fs : String → Bool) (runOutcome : Except String Unit)
         (u p : String) (args : Args),
        args.polyfile = some p → p ≠ "" → fs p = true →
        builtInv (execute_olu fs runOutcome u args) =
          some (olu_invocation (olu_inner_cmd u args ++ " --polygon " ++ p) args))
    ∧ (∀ (fs : String → Bool) (runOutcome : Except String Unit)
         (u : String) (args : Args),
        args.polyfile = none →
        builtInv (execute_olu fs runOutcome u args) =
          some (olu_invocation (olu_inner_cmd u args) args))
    ∧ resolve_replication_server argsEx = "https://planet.osm.org/replication/day/"
    ∧ olu_inner_cmd (resolve_replication_server argsEx) argsEx =
        "http://localhost:7001 -a tok -f https://planet.osm.org/replication/day/ --qlever"
    ∧ (builtInv (execute_olu (fun _ => false) (Except.ok ())
          (resolve_replication_server argsEx) argsEx)).map
        ContainerInvocation.containerName = some "olu-myregion" := by
  refine ⟨fun u args => rfl, ?_, ?_, by decide, by decide, by decide⟩
  · intro fs runOutcome u p args hp hne hfs
    simp [execute_olu, hp, truthy_some hne, hfs, builtInv_run_phase]
  · intro fs runOutcome u args hp
    simp [execute_olu, hp, truthy, builtInv_run_phase]

/-- C1 witness: the polyfile branch of `c1_inner_command_order` at concrete
arguments with an existing boundary file. -/
theorem c1_inner_command_order_witness :
    builtInv (execute_olu (fun _ => true) (Except.ok ()) "src" argsPoly) =
      some (olu_invocation (olu_inner_cmd "src" argsPoly ++ " --polygon " ++ "region.poly")
        argsPoly) :=
  c1_inner_command_order.2.1 (fun _ => true) (Except.ok ()) "src" "region.poly"
    argsPoly (by decide) (by decide) rfl

/-- C2: for every granularity in `minute`, `hour`, `day`: without an
override the resolved replication source is
`https://planet.osm.org/replication/` ++ granularity ++ `/`, and with a
non-empty override it is the override verbatim, independent of the
granularity. -/
theorem c2_replication_source_resolution :
    ∀ (args : Args) (g : String),
      args.granularity = [g] →
      (g = "minute" ∨ g = "hour" ∨ g = "day") →
      (args.replication_server = none →
        resolve_replication_server args =
          "https://planet.osm.org/replication/" ++ g ++ "/")
      ∧ (∀ ov : String, args.replication_server = some ov → ov ≠ "" →
          resolve_replication_server args = ov) := by
  intro args g hg _
  constructor
  · intro hnone
    simp [resolve_replication_server, hnone, hg, truthy,
      planet_replication_server_url]
  · intro ov hov hne
    simp [resolve_replication_server, hov, truthy_some hne]

/-- C2 witness: `c2_replication_source_resolution` at scenario-1 arguments
(granularity day, no override) and at the same arguments with override
`https://example.org/replication/`. -/
theorem c2_replication_source_resolution_witness :
    resolve_replication_server argsEx = "https://planet.osm.org/replication/day/"
    ∧ resolve_replication_server
        { argsEx with replication_server := some "https://example.org/replication/" } =
        "https://example.org/replication/" :=
  ⟨by
    have h := (c2_replication_source_resolution argsEx "day" rfl
      (Or.inr (Or.inr rfl))).1 rfl
    simpa using h,
   (c2_replication_source_resolution
      { argsEx with replication_server := some "https://example.org/replication/" }
      "day" rfl (Or.inr (Or.inr rfl))).2
      "https://example.org/replication/" rfl (by decide)⟩

/-- C3: boundary-file validation fails (failed result with no invocation
constructed) exactly when the supplied boundary path is non-empty (truthy)
and does not exist; and for an absent or empty path the outcome does not
depend on the filesystem oracle at all. -/
theorem c3_boundary_validation :
    ∀ (fs : String → Bool) (runOutcome : Except String Unit)
      (u : String) (args : Args),
      (validationFailed (execute_olu fs runOutcome u args) = true ↔
        (truthy args.polyfile = true ∧ fs (args.polyfile.getD "") = false))
      ∧ (truthy args.polyfile = false →
          ∀ fs2 : String → Bool,
            execute_olu fs runOutcome u args = execute_olu fs2 runOutcome u args) := by
  intro fs runOutcome u args
  constructor
  · cases ht : truthy args.polyfile with
    | false =>
        simp [execute_olu, ht, validationFailed_run_phase]
    | true =>
        cases hfs : fs (args.polyfile.getD "") with
        | false =>
            simp [execute_olu, ht, hfs, validationFailed, Event.isBuilt]
        | true =>
            simp [execute_olu, ht, hfs, validationFailed_run_phase]
  · intro ht fs2
    simp [execute_olu, ht]

/-- C3 witness: `c3_boundary_validation` with no polyfile; the outcome is
independent of the filesystem oracle. -/
theorem c3_boundary_validation_witness :
    execute_olu (fun _ => true) (Except.ok ()) "src" argsEx =
      execute_olu (fun _ => false) (Except.ok ()) "src" argsEx :=
  (c3_boundary_validation (fun _ => true) (Except.ok ()) "src" argsEx).2
    (by decide) (fun _ => false)

/-- C4: a non-empty boundary path that does not exist makes `execute_olu`
return exactly a failed result whose trace is the error report and its two
guidance lines — so no container invocation is constructed, no process is
launched, and the failure is reported before any command is built; the
overall result of `execute` is failed as well. -/
theorem c4_invalid_boundary_aborts :
    ∀ (fs : String → Bool) (runOutcome : Except String Unit)
      (u p : String) (args : Args),
      args.polyfile = some p → p ≠ "" → fs p = false →
      execute_olu fs runOutcome u args =
        (false,
          [Event.errorReported ("No file matching \"" ++ p ++ "\" found"),
           Event.infoShown "",
           Event.infoShown "Check if the polyfile exists and if the path is correct."])
      ∧ (execute fs runOutcome args).1 = false := by
  intro fs runOutcome u p args hp hne hfs
  have holu : ∀ v : String, execute_olu fs runOutcome v args =
      (false,
        [Event.errorReported ("No file matching \"" ++ p ++ "\" found"),
         Event.infoShown "",
         Event.infoShown "Check if the polyfile exists and if the path is correct."]) := by
    intro v
    simp [execute_olu, hp, truthy_some hne, hfs]
  exact ⟨holu u, by simp [execute, holu]⟩

/-- C4 witness: `c4_invalid_boundary_aborts` at the scenario-2 arguments,
where `region.poly` does not exist. -/
theorem c4_invalid_boundary_aborts_witness :
    execute_olu (fun _ => false) (Except.ok ()) "src" argsPoly =
      (false,
        [Event.errorReported ("No file matching \"" ++ "region.poly" ++ "\" found"),
         Event.infoShown "",
         Event.infoShown "Check if the polyfile exists and if the path is correct."])
    ∧ (execute (fun _ => false) (Except.ok ()) argsPoly).1 = false :=
  c4_invalid_boundary_aborts (fun _ => false) (Except.ok ()) "src" "region.poly"
    argsPoly (by decide) (by decide) rfl

/-- C5: in show (describe-only) mode with valid inputs the result is true,
no process is launched, the assembled invocation is shown, and the outcome
does not depend on the process-execution oracle at all — the execution
collaborator is never invoked. -/
theorem c5_show_mode_never_executes :
    ∀ (fs : String → Bool) (runOutcome : Except String Unit)
      (u : String) (args : Args),
      args.only_show = true →
      (truthy args.polyfile = false ∨ fs (args.polyfile.getD "") = true) →
      (execute_olu fs runOutcome u args).1 = true
      ∧ ((execute_olu fs runOutcome u args).2.all fun e => !e.isLaunched) = true
      ∧ (∃ inv, Event.invocationShown inv ∈ (execute_olu fs runOutcome u args).2)
      ∧ (∀ r2 : Except String Unit,
          execute_olu fs runOutcome u args = execute_olu fs r2 u args) := by
  intro fs runOutcome u args hshow hvalid
  cases ht : truthy args.polyfile with
  | false =>
      refine ⟨?_, ?_, ?_, ?_⟩ <;>
        simp [execute_olu, ht, run_phase, hshow, Event.isLaunched]
  | true =>
      have hfs : fs (args.polyfile.getD "") = true := by
        rcases hvalid with h | h
        · rw [ht] at h; cases h
        · exact h
      refine ⟨?_, ?_, ?_, ?_⟩ <;>
        simp [execute_olu, ht, hfs, run_phase, hshow, Event.isLaunched]

/-- C5 witness: `c5_show_mode_never_executes` at scenario-3 arguments; in
particular the outcome with a failing run oracle equals the outcome with a
succeeding one. -/
theorem c5_show_mode_never_executes_witness :
    (execute_olu (fun _ => true) (Except.ok ()) "src" argsEx).1 = true
    ∧ execute_olu (fun _ => true) (Except.ok ()) "src" argsEx =
        execute_olu (fun _ => true) (Except.error "boom") "src" argsEx := by
  have h := c5_show_mode_never_executes (fun _ => true) (Except.ok ()) "src" argsEx
    rfl (Or.inl (by decide))
  exact ⟨h.1, h.2.2.2 (Except.error "boom")⟩

/-- C6: in execute mode with passing validation the child process is
launched exactly once; when `run_command` raises (launch failure or
non-zero exit) the result is failed and carries a human-readable cause,
and when the child exits with status zero the result is true. -/
theorem c6_execute_mode_single_launch :
    ∀ (fs : String → Bool) (runOutcome : Except String Unit)
      (u : String) (args : Args),
      args.only_show = false →
      (truthy args.polyfile = false ∨ fs (args.polyfile.getD "") = true) →
      ((execute_olu fs runOutcome u args).2.countP fun e => e.isLaunched) = 1
      ∧ (∀ e : String, runOutcome = Except.error e →
          (execute_olu fs runOutcome u args).1 = false ∧
          Event.errorReported ("Error running osm-live-updates: " ++ e) ∈
            (execute_olu fs runOutcome u args).2)
      ∧ (runOutcome = Except.ok () →
          (execute_olu fs runOutcome u args).1 = true) := by
  intro fs runOutcome u args hshow hvalid
  have hfs : truthy args.polyfile = false ∨
      (truthy args.polyfile = true ∧ fs (args.polyfile.getD "") = true) := by
    cases ht : truthy args.polyfile with
    | false => exact Or.inl rfl
    | true =>
        rcases hvalid with h | h
        · rw [ht] at h; cases h
        · exact Or.inr ⟨rfl, h⟩
  refine ⟨?_, ?_, ?_⟩
  · rcases hfs with ht | ⟨ht, hex⟩
    · cases runOutcome <;>
        simp [execute_olu, ht, run_phase, hshow, Event.isLaunched,
          List.countP_cons]
    · cases runOutcome <;>
        simp [execute_olu, ht, hex, run_phase, hshow, Event.isLaunched,
          List.countP_cons]
  · intro e herr
    subst herr
    rcases hfs with ht | ⟨ht, hex⟩
    · simp [execute_olu, ht, run_phase, hshow]
    · simp [execute_olu, ht, hex, run_phase, hshow]
  · intro hok
    subst hok
    rcases hfs with ht | ⟨ht, hex⟩
    · simp [execute_olu, ht, run_phase, hshow]
    · simp [execute_olu, ht, hex, run_phase, hshow]

/-- C6 witness: `c6_execute_mode_single_launch` in execute mode with no
polyfile; a raising run oracle yields a failed result and a single launch. -/
theorem c6_execute_mode_single_launch_witness :
    (((execute_olu (fun _ => true) (Except.error "boom") "src"
        { argsEx with only_show := false }).2.countP fun e => e.isLaunched) = 1)
    ∧ (execute_olu (fun _ => true) (Except.error "boom") "src"
        { argsEx with only_show := false }).1 = false := by
  have h := c6_execute_mode_single_launch (fun _ => true) (Except.error "boom")
    "src" { argsEx with only_show := false } rfl (Or.inl (by decide))
  exact ⟨h.1, (h.2.1 "boom" rfl).1⟩

/-- C7: every built container invocation is `olu_invocation cmd args` for
some inner command `cmd`, and `olu_invocation` always carries container
name `olu-` ++ dataset name, the current working directory `$(pwd)`
mounted at `/update`, working directory `/update`, image `olu:latest`,
runtime `docker` with flags `run --rm` (automatic removal after exit),
and no bash wrapper for the inner command. -/
theorem c7_container_invocation_shape :
    (∀ (cmd : String) (args : Args),
      (olu_invocation cmd args).containerName = "olu-" ++ args.name
      ∧ (olu_invocation cmd args).volumes = [("$(pwd)", "/update")]
      ∧ (olu_invocation cmd args).workingDirectory = "/update"
      ∧ (olu_invocation cmd args).image = "olu:latest"
      ∧ (olu_invocation cmd args).runtime = "docker"
      ∧ (olu_invocation cmd args).runtimeFlags = "run --rm"
      ∧ (olu_invocation cmd args).useBash = false)
    ∧ (∀ (fs : String → Bool) (runOutcome : Except String Unit)
         (u : String) (args : Args),
        (truthy args.polyfile = false ∨ fs (args.polyfile.getD "") = true) →
        ∃ cmd, builtInv (execute_olu fs runOutcome u args) =
          some (olu_invocation cmd args)) := by
  refine ⟨fun cmd args => ⟨rfl, rfl, rfl, rfl, rfl, rfl, rfl⟩, ?_⟩
  intro fs runOutcome u args hvalid
  cases ht : truthy args.polyfile with
  | false =>
      exact ⟨olu_inner_cmd u args, by simp [execute_olu, ht, builtInv_run_phase]⟩
  | true =>
      have hfs : fs (args.polyfile.getD "") = true := by
        rcases hvalid with h | h
        · rw [ht] at h; cases h
        · exact h
      exact ⟨olu_inner_cmd u args ++ " --polygon " ++ args.polyfile.getD "",
        by simp [execute_olu, ht, hfs, builtInv_run_phase]⟩

/-- C7 witness: `c7_container_invocation_shape` at scenario-1 arguments; a
built invocation of the expected shape exists. -/
theorem c7_container_invocation_shape_witness :
    ∃ cmd, builtInv (execute_olu (fun _ => true) (Except.ok ()) "src" argsEx) =
      some (olu_invocation cmd argsEx) :=
  c7_container_invocation_shape.2 (fun _ => true) (Except.ok ()) "src" argsEx
    (Or.inl (by decide))

/-- C8: two requests identical except that one supplies an existing
boundary file and the other supplies none build invocations that differ
exactly by the appended ` --polygon path` tokens of the inner command;
every other field (runtime, flags, image, container name, volumes,
working directory, bash wrapper) is unchanged. -/
theorem c8_polyfile_frame :
    ∀ (fs : String → Bool) (runOutcome : Except String Unit)
      (u p : String) (a1 a2 : Args),
      a1.polyfile = none → a2.polyfile = some p → p ≠ "" → fs p = true →
      a1.name = a2.name → a1.host_name = a2.host_name → a1.port = a2.port →
      a1.access_token = a2.access_token →
      ∃ i1 i2,
        builtInv (execute_olu fs runOutcome u a1) = some i1
        ∧ builtInv (execute_olu fs runOutcome u a2) = some i2
        ∧ i2.command = i1.command ++ " --polygon " ++ p
        ∧ i1.runtime = i2.runtime
        ∧ i1.runtimeFlags = i2.runtimeFlags
        ∧ i1.image = i2.image
        ∧ i1.containerName = i2.containerName
        ∧ i1.volumes = i2.volumes
        ∧ i1.workingDirectory = i2.workingDirectory
        ∧ i1.useBash = i2.useBash := by
  intro fs runOutcome u p a1 a2 h1 h2 hne hfs hn hh hp ha
  refine ⟨olu_invocation (olu_inner_cmd u a1) a1,
    olu_invocation (olu_inner_cmd u a2 ++ " --polygon " ++ p) a2, ?_, ?_, ?_,
    rfl, rfl, rfl, ?_, rfl, rfl, rfl⟩
  · simp [execute_olu, h1, truthy, builtInv_run_phase]
  · simp [execute_olu, h2, truthy_some hne, hfs, builtInv_run_phase]
  · simp [olu_invocation, containerize_command, olu_inner_cmd, hh, hp, ha]
  · simp [olu_invocation, containerize_command, hn]

/-- C8 witness: `c8_polyfile_frame` at scenario-1 arguments versus the same
arguments with an existing `region.poly`. -/
theorem c8_polyfile_frame_witness :
    ∃ i1 i2,
      builtInv (execute_olu (fun _ => true) (Except.ok ()) "src" argsEx) = some i1
      ∧ builtInv (execute_olu (fun _ => true) (Except.ok ()) "src" argsPoly) = some i2
      ∧ i2.command = i1.command ++ " --polygon " ++ "region.poly"
      ∧ i1.runtime = i2.runtime
      ∧ i1.runtimeFlags = i2.runtimeFlags
      ∧ i1.image = i2.image
      ∧ i1.containerName = i2.containerName
      ∧ i1.volumes = i2.volumes
      ∧ i1.workingDirectory = i2.workingDirectory
      ∧ i1.useBash = i2.useBash :=
  c8_polyfile_frame (fun _ => true) (Except.ok ()) "src" "region.poly"
    argsEx argsPoly rfl (by decide) (by decide) rfl rfl rfl rfl rfl

/-- C9: command assembly and dispatch are deterministic — identical
arguments, filesystem and run outcome yield identical results and traces,
and hence identical built invocations. -/
theorem c9_deterministic_assembly :
    ∀ (fs : String → Bool) (runOutcome : Except String Unit)
      (u : String) (a1 a2 : Args),
      a1 = a2 →
      execute_olu fs runOutcome u a1 = execute_olu fs runOutcome u a2
      ∧ builtInv (execute_olu fs runOutcome u a1) =
          builtInv (execute_olu fs runOutcome u a2)
      ∧ execute fs runOutcome a1 = execute fs runOutcome a2 := by
  intro fs runOutcome u a1 a2 h
  subst h
  exact ⟨rfl, rfl, rfl⟩

/-- C9 witness: `c9_deterministic_assembly` at scenario-1 arguments. -/
theorem c9_deterministic_assembly_witness :
    execute (fun _ => true) (Except.ok ()) argsEx =
      execute (fun _ => true) (Except.ok ()) argsEx :=
  (c9_deterministic_assembly (fun _ => true) (Except.ok ()) "src" argsEx argsEx
    rfl).2.2

/-- C10: even in show (describe-only) mode, a non-empty boundary path that
does not exist makes the result failed, and the container invocation is
never shown — the dry run performs the boundary-file existence check. -/
theorem c10_show_mode_validates :
    ∀ (fs : String → Bool) (runOutcome : Except String Unit)
      (u p : String) (args : Args),
      args.only_show = true → args.polyfile = some p → p ≠ "" → fs p = false →
      (execute_olu fs runOutcome u args).1 = false
      ∧ (∀ inv, Event.invocationShown inv ∉ (execute_olu fs runOutcome u args).2)
      ∧ (execute fs runOutcome args).1 = false := by
  intro fs runOutcome u p args _ hp hne hfs
  have holu : ∀ v : String, execute_olu fs runOutcome v args =
      (false,
        [Event.errorReported ("No file matching \"" ++ p ++ "\" found"),
         Event.infoShown "",
         Event.infoShown "Check if the polyfile exists and if the path is correct."]) := by
    intro v
    simp [execute_olu, hp, truthy_some hne, hfs]
  refine ⟨by simp [holu u], ?_, by simp [execute, holu]⟩
  intro inv
  simp [holu u]

/-- C10 witness: `c10_show_mode_validates` at scenario-2 arguments in show
mode with a missing `region.poly`. -/
theorem c10_show_mode_validates_witness :
    (execute_olu (fun _ => false) (Except.ok ()) "src" argsPoly).1 = false
    ∧ (execute (fun _ => false) (Except.ok ()) argsPoly).1 = false := by
  have h := c10_show_mode_validates (fun _ => false) (Except.ok ()) "src"
    "region.poly" argsPoly rfl (by decide) (by decide) rfl
  exact ⟨h.1, h.2.2⟩

end OsmUpdate
